import Mathlib

/-!
Verification of reactor-contrib: process supervisors (`builders/pkg.go`) and watch loops (`fs/fs.go`)

A shallow embedding of the goroutines started by `RunCMD`, `RunGo`, `RunBin`,
`Watch` and `WatchSet`.  Every goroutine is a function from the finite list of
things it receives from its environment (values read from a channel, results
of operating-system calls) to the list of externally visible actions it
performs, in program order.
-/

namespace Builders

/-- Identity of an operating-system process (`*os.Process`). -/
abbrev Pid := Nat

/-- Externally visible actions of the goroutines of `builders/pkg.go`. -/
inductive Event where
  /-- `fmt.Printf(format, ...)`; only the format string is recorded. -/
  | Printf (format : String)
  /-- `exec.Command(name, args...)` followed by `cmd.Start()`; `proc` is
  `cmd.Process` afterwards (`none` when `Start` returned an error). -/
  | Start (name : String) (args : List String) (proc : Option Pid)
  /-- `proc.Signal(os.Interrupt)`. -/
  | Signal (p : Pid)
  /-- `proc.Kill()`. -/
  | Kill (p : Pid)
  /-- `proc.Wait()`, which blocks until the process has exited. -/
  | Wait (p : Pid)
  /-- Call of the callback `done`. -/
  | done
  /-- Call of the callback `stopped`. -/
  | stopped
  deriving DecidableEq, Repr

/-- One value received from the channel `relunch`, together with the results
the operating system gives during the iteration that handles it. -/
structure Recv where
  /-- The boolean read from the channel. -/
  dosig : Bool
  /-- Whether the first `proc.Kill()` / `proc.Signal(os.Interrupt)` returns an error. -/
  sigErr : Bool
  /-- Whether `cmd.Start()` returns an error. -/
  startErr : Bool
  deriving DecidableEq, Repr

/-- What distinguishes the receive loop of `RunGo` from the one of `RunBin`
(the two loops are the same statement for statement): the command, its
arguments, the three format strings, the two optional callbacks
(`true` = not `nil`) and `runtime.GOOS == "windows"`. -/
structure Cmd where
  name : String
  args : List String
  startMsg : String
  startErrMsg : String
  killErrMsg : String
  done : Bool
  stopped : Bool
  windows : Bool
  deriving DecidableEq, Repr

/-- Local state of the goroutine: the variable `proc` and the identity the
next successfully started process will get. -/
structure State where
  proc : Option Pid
  next : Pid
  deriving DecidableEq, Repr

/-- The block `if proc != nil { ... }` for `proc = p`: kill (windows) or
interrupt, on error print and `proc.Kill()`, then `proc.Wait()`. -/
def stopProc (c : Cmd) (r : Recv) (p : Pid) : List Event :=
  (if c.windows then [Event.Kill p] else [Event.Signal p]) ++
  (if r.sigErr then [Event.Printf c.killErrMsg, Event.Kill p] else []) ++
  [Event.Wait p]

/-- The part of the loop body after `if !dosig { continue }`, entered with
`proc == nil`: print, start, print on error, `proc = cmd.Process`, `done()`. -/
def startProc (c : Cmd) (next : Pid) (r : Recv) : State × List Event :=
  let started : Option Pid := if r.startErr then none else some next
  ({ proc := started, next := if r.startErr then next else next + 1 },
   [Event.Printf c.startMsg, Event.Start c.name c.args started] ++
   (if r.startErr then [Event.Printf c.startErrMsg] else []) ++
   (if c.done then [Event.done] else []))

/-- One iteration of `for dosig := range relunch { ... }`. -/
def iteration (c : Cmd) (st : State) (r : Recv) : State × List Event :=
  let stopped : List Event :=
    match st.proc with
    | some p => stopProc c r p
    | none => []
  if !r.dosig then
    ({ proc := none, next := st.next }, stopped)
  else
    let (st2, started) := startProc c st.next r
    (st2, stopped ++ started)

/-- The loop `for dosig := range relunch` over the values received. -/
def rangeLoop (c : Cmd) : State → List Recv → State × List Event
  | st, [] => (st, [])
  | st, r :: rs =>
    let (st1, t1) := iteration c st r
    let (st2, t2) := rangeLoop c st1 rs
    (st2, t1 ++ t2)

/-- The goroutine of `RunGo`/`RunBin`: `var proc *os.Process`, the receive
loop, and, once the channel is closed, `stopped()` when it is not `nil`.
`closed = false` is the run in which the channel is still open after `rs`. -/
def supervisor (c : Cmd) (rs : List Recv) (closed : Bool) : List Event :=
  (rangeLoop c { proc := none, next := 0 } rs).2 ++
  (if closed && c.stopped then [Event.stopped] else [])

/-- The variable `proc` of the goroutine after it handled `rs`. -/
def procAfter (c : Cmd) (rs : List Recv) : Option Pid :=
  (rangeLoop c { proc := none, next := 0 } rs).1.proc

/-- What `RunBin(binfile, args, done, stopped)` fixes for its loop. -/
def binCmd (windows : Bool) (binfile : String) (args : List String)
    (done stopped : Bool) : Cmd :=
  { name := binfile, args := args,
    startMsg := "--> Starting bin: %s\n",
    startErrMsg := "---> Error starting process: %s -> %s\n",
    killErrMsg := "---> Error in Sending Kill Signal: %s\n",
    done := done, stopped := stopped, windows := windows }

/-- What `RunGo(gofile, args, done, stopped)` fixes for its loop: the command
is `go` with `cmdargs = append([]string("run", gofile), args...)` after
`gofile = filepath.Clean(gofile)`; `clean` stands for `filepath.Clean`. -/
def goCmd (windows : Bool) (clean : String → String) (gofile : String)
    (args : List String) (done stopped : Bool) : Cmd :=
  { name := "go", args := ["run", clean gofile] ++ args,
    startMsg := "--> Starting cmd: %s\n",
    startErrMsg := "---> Error starting process: %s\n",
    killErrMsg := "---> Error in Sending Kill Signal %s\n",
    done := done, stopped := stopped, windows := windows }

/-- `RunBin(binfile, args, done, stopped)`: the actions of its goroutine when
the returned channel delivers `rs` (and is then closed, if `closed`). -/
def RunBin (windows : Bool) (binfile : String) (args : List String)
    (done stopped : Bool) (rs : List Recv) (closed : Bool) : List Event :=
  supervisor (binCmd windows binfile args done stopped) rs closed

/-- `RunGo(gofile, args, done, stopped)`: the actions of its goroutine when
the returned channel delivers `rs` (and is then closed, if `closed`). -/
def RunGo (windows : Bool) (clean : String → String) (gofile : String)
    (args : List String) (done stopped : Bool) (rs : List Recv)
    (closed : Bool) : List Event :=
  supervisor (goCmd windows clean gofile args done stopped) rs closed

/-- `strings.Split(s, " ")` on the characters of `s`: the pieces between
consecutive single spaces, one more than there are spaces. -/
def Split : List Char → List (List Char)
  | [] => [[]]
  | ch :: rest =>
    if ch = ' ' then [] :: Split rest
    else
      match Split rest with
      | [] => [[ch]]
      | w :: ws => (ch :: w) :: ws

/-- One value received by the goroutine of `RunCMD`, with the result of each
`cmdo.Start()` of the iteration (by position in the list of commands). -/
structure CmdRecv where
  /-- The boolean read from the channel. -/
  dosig : Bool
  /-- Whether `cmdo.Start()` of the command at this position returns an error. -/
  startErr : Nat → Bool

/-- The loop `for _, cox := range cmds` of `RunCMD` from position `i`, with
`next` the identity of the next process started. -/
def runCommands (r : CmdRecv) : Nat → Pid → List String → Pid × List Event
  | _, next, [] => (next, [])
  | i, next, cox :: rest =>
    let cmd := Split cox.toList
    if cmd.length ≤ 1 then
      runCommands r (i + 1) next rest
    else
      let name := String.mk (cmd.headD [])
      let args := cmd.tail.map String.mk
      if r.startErr i then
        let (n, t) := runCommands r (i + 1) next rest
        (n, [Event.Start name args none,
             Event.Printf "---> Error executing command: %s -> %s\n"] ++ t)
      else
        let (n, t) := runCommands r (i + 1) (next + 1) rest
        (n, Event.Start name args (some next) :: t)

/-- The loop `cmdloop` of `RunCMD` over the values received. -/
def cmdLoop (cmds : List String) (done : Bool) : Pid → List CmdRecv → List Event
  | _, [] => []
  | next, r :: rs =>
    if !r.dosig then cmdLoop cmds done next rs
    else
      let (n, t) := runCommands r 0 next cmds
      [Event.Printf "--> Running Commands %s\n"] ++ t ++
        (if done then [Event.done] else []) ++ cmdLoop cmds done n rs

/-- `RunCMD(cmds, done)`: `Except.error` is the panic of the guard
`if len(cmds) < 0`, otherwise the actions of the goroutine when the returned
channel delivers `rs`. -/
def RunCMD (cmds : List String) (done : Bool) (rs : List CmdRecv) :
    Except String (List Event) :=
  if (cmds.length : Int) < 0 then
    Except.error "commands list cant be empty"
  else
    Except.ok (cmdLoop cmds done 0 rs)

/-- Processes started and not yet waited for, after one more event. -/
def liveStep (l : List Pid) : Event → List Pid
  | Event.Start _ _ (some p) => p :: l
  | Event.Wait p => l.erase p
  | _ => l

/-- Processes started and not yet waited for at the end of a trace. -/
def live (t : List Event) : List Pid := t.foldl liveStep []

/-- Whether an event is a call of `cmd.Start()`. -/
def isStart : Event → Bool
  | Event.Start _ _ _ => true
  | _ => false

/-- Whether an event is diagnostic output. -/
def isPrintf : Event → Bool
  | Event.Printf _ => true
  | _ => false

/-- The trace without its diagnostic output. -/
def actions (t : List Event) : List Event := t.filter (fun e => !isPrintf e)

/-- Trace monitor: from the live list `l`, along `t` at most one process is
ever live and every `cmd.Start()` is called when none is. -/
def Safe : List Pid → List Event → Prop
  | l, [] => l.length ≤ 1
  | l, e :: t => l.length ≤ 1 ∧ (isStart e = true → l = []) ∧ Safe (liveStep l e) t

end Builders

namespace Fs

/-- An `error` value, identified by its text. -/
abbrev Err := String

/-- Externally visible actions of the handlers and goroutines of `fs/fs.go`:
calls on the reactor `root`, on the notification handle `wo` and on a
directory listing. -/
inductive Ev where
  /-- `root.ReplyError(err)`. -/
  | ReplyError (err : Err)
  /-- `root.Reply(ev)`. -/
  | Reply (ev : String)
  /-- `root.Close()` (also as `go root.Close()` and as `defer root.Close()`). -/
  | Close
  /-- `fsnotify.NewWatcher()`; `ok` tells whether a handle was returned. -/
  | NewWatcher (ok : Bool)
  /-- `wo.Add(path)`. -/
  | Add (path : String)
  /-- `wo.Close()`. -/
  | WoClose
  /-- `dir.Reload()` of the listing made for `path`. -/
  | Reload (path : String)
  deriving DecidableEq, Repr

/-- One value of the map `dir.Listings.Tree`: a directory and the pairs
`(mod, real)` that `files.Tree.Each` visits. -/
structure Listing where
  AbsDir : String
  Tree : List (String × String)
  deriving DecidableEq, Repr

/-- An `*assets.DirListing`: the path it was made for and the values of
`Listings.Tree` in the order `range` visits them. -/
structure DirListing where
  Path : String
  Tree : List Listing
  deriving DecidableEq, Repr

/-- The case of the `select` statement that is taken. -/
inductive Selected where
  /-- `case ev, ok := <-wo.Events`. -/
  | Events (ev : String) (ok : Bool)
  /-- `case erx, ok := <-wo.Errors`. -/
  | Errors (erx : Err) (ok : Bool)
  /-- `case <-root.CloseNotify()`. -/
  | CloseNotify
  deriving DecidableEq, Repr

/-- What the environment answers during one iteration of a watch loop. -/
structure Iter where
  /-- The error of `fsnotify.NewWatcher()`, if any. -/
  NewWatcher : Option Err
  /-- The error of `wo.Add(path)`, if any. -/
  Add : String → Option Err
  /-- The case the `select` takes. -/
  selected : Selected
  /-- The result of `dir.Reload()` for the listing made for a path: an error
  (the listing is kept as it is) or the new content of `Listings.Tree`. -/
  Reload : String → Except Err (List Listing)

/-- The file system and the packages the handlers call. -/
structure World where
  /-- `os.Stat(path)`: an error, or `stat.IsDir()`. -/
  Stat : String → Except Err Bool
  /-- `assets.DirListings(path, m.Validator, m.Mux)`. -/
  DirListings : String → Except Err DirListing
  /-- `filepath.Join`. -/
  Join : String → String → String

/-- `WatchConfig`; `Validator` and `Mux` are only handed to
`assets.DirListings`, see `World.DirListings`. -/
structure WatchConfig where
  Path : String
  deriving DecidableEq, Repr

/-- `WatchSetConfig`; `Validator` and `Mux` as for `WatchConfig`. -/
structure WatchSetConfig where
  Path : List String
  deriving DecidableEq, Repr

/-- Result of running a handler and the goroutine it starts against the
answers of the environment. -/
structure Outcome where
  /-- The captured variable `running` afterwards. -/
  running : Bool
  /-- The actions performed, in order. -/
  trace : List Ev
  /-- Whether the goroutine started with `flux.GoDefer` is still inside its
  `for` loop once the answers are used up (`false`: it was not started, or it
  left the loop and ran `defer root.Close()`). -/
  looping : Bool
  deriving DecidableEq, Repr

/-- The body of the `select` statement of `Watch`; its `CloseNotify` case is
`wo.Close(); break`, which leaves the `select`. -/
def selectWatch : Selected → List Ev
  | Selected.Events ev ok => if ok then [Ev.Reply ev] else []
  | Selected.Errors erx ok => if ok then [Ev.ReplyError erx] else []
  | Selected.CloseNotify => [Ev.WoClose]

/-- The body of the `select` statement of `WatchSet`; its `CloseNotify` case
is `break`, which leaves the `select`. -/
def selectWatchSet : Selected → List Ev
  | Selected.Events ev ok => if ok then [Ev.Reply ev] else []
  | Selected.Errors erx ok => if ok then [Ev.ReplyError erx] else []
  | Selected.CloseNotify => []

/-- The registration `for _, files := range dir.Listings.Tree { ... }`. -/
def register (join : String → String → String) : List Listing → List Ev
  | [] => []
  | files :: rest =>
    Ev.Add files.AbsDir :: files.Tree.map (fun mr => Ev.Add (join files.AbsDir mr.2)) ++
      register join rest

/-- The `for` loop of the goroutine `Watch` starts for a path that is not a
directory (fs.go lines 49-78), followed by `defer root.Close()`. -/
def fileLoop (path : String) : List Iter → List Ev × Bool
  | [] => ([], true)
  | it :: rest =>
    match it.NewWatcher with
    | some err => ([Ev.NewWatcher false, Ev.ReplyError err, Ev.Close], false)
    | none =>
      match it.Add path with
      | some _ => ([Ev.NewWatcher true, Ev.Add path, Ev.WoClose, Ev.Close], false)
      | none =>
        let (t, s) := fileLoop path rest
        ([Ev.NewWatcher true, Ev.Add path] ++ selectWatch it.selected ++ [Ev.WoClose] ++ t, s)

/-- The `for` loop of the goroutine `Watch` starts for a directory (fs.go
lines 95-133), followed by `defer root.Close()`. -/
def dirLoop (join : String → String → String) : DirListing → List Iter → List Ev × Bool
  | _, [] => ([], true)
  | dir, it :: rest =>
    match it.NewWatcher with
    | some err => ([Ev.NewWatcher false, Ev.ReplyError err, Ev.Close], false)
    | none =>
      let reloaded : DirListing × List Ev :=
        match it.Reload dir.Path with
        | Except.error err => (dir, [Ev.Reload dir.Path, Ev.ReplyError err])
        | Except.ok tree => ({ dir with Tree := tree }, [Ev.Reload dir.Path])
      let (t, s) := dirLoop join reloaded.1 rest
      ([Ev.NewWatcher true] ++ register join dir.Tree ++ selectWatch it.selected ++
        [Ev.WoClose] ++ reloaded.2 ++ t, s)

/-- The loop `for _, dir := range dirlistings { dir.Reload() }` of `WatchSet`. -/
def reloadAll (it : Iter) : List DirListing → List DirListing × List Ev
  | [] => ([], [])
  | dir :: rest =>
    let dir2 : DirListing :=
      match it.Reload dir.Path with
      | Except.error _ => dir
      | Except.ok tree => { dir with Tree := tree }
    let (ds, t) := reloadAll it rest
    (dir2 :: ds, Ev.Reload dir.Path :: t)

/-- The registration loop of `WatchSet` over `dirlistings`. -/
def registerAll (join : String → String → String) : List DirListing → List Ev
  | [] => []
  | dir :: rest => register join dir.Tree ++ registerAll join rest

/-- The `for` loop of the goroutine of `WatchSet` (fs.go lines 193-238),
followed by `defer root.Close()`. -/
def setLoop (join : String → String → String) (files : List String) :
    List DirListing → List Iter → List Ev × Bool
  | _, [] => ([], true)
  | dirlistings, it :: rest =>
    match it.NewWatcher with
    | some err => ([Ev.NewWatcher false, Ev.ReplyError err, Ev.Close], false)
    | none =>
      let reloaded := reloadAll it dirlistings
      let (t, s) := setLoop join files reloaded.1 rest
      ([Ev.NewWatcher true] ++ registerAll join dirlistings ++ files.map Ev.Add ++
        selectWatchSet it.selected ++ [Ev.WoClose] ++ reloaded.2 ++ t, s)

/-- The handler `Watch` gives to `flux.Reactive`, called with the captured
`running` and the argument `err`, together with the goroutine it starts. -/
def watchHandler (w : World) (m : WatchConfig) (running : Bool) (err : Option Err)
    (script : List Iter) : Outcome :=
  match err with
  | some e => { running := running, trace := [Ev.ReplyError e], looping := false }
  | none =>
    if running then { running := running, trace := [], looping := false }
    else
      match w.Stat m.Path with
      | Except.error e =>
        { running := running, trace := [Ev.ReplyError e, Ev.Close], looping := false }
      | Except.ok false =>
        let (t, s) := fileLoop m.Path script
        { running := true, trace := t, looping := s }
      | Except.ok true =>
        match w.DirListings m.Path with
        | Except.error e =>
          { running := true, trace := [Ev.ReplyError e, Ev.Close], looping := false }
        | Except.ok dir =>
          let (t, s) := dirLoop w.Join dir script
          { running := true, trace := t, looping := s }

/-- `Watch(m)`: the reactor is made and `mo.Send(true)` calls the handler
with `err == nil` while `running` is `false`. -/
def Watch (w : World) (m : WatchConfig) (script : List Iter) : Outcome :=
  watchHandler w m false none script

/-- The variables `dirlistings` and `files` of the handler of `WatchSet` and
what it forwarded while classifying. -/
structure Classified where
  trace : List Ev
  dirlistings : List DirListing
  files : List String
  deriving DecidableEq, Repr

/-- One iteration of `for _, path := range m.Path` (fs.go lines 167-183). -/
def classifyStep (w : World) (acc : Classified) (path : String) : Classified :=
  match w.Stat path with
  | Except.error e => { acc with trace := acc.trace ++ [Ev.ReplyError e] }
  | Except.ok true =>
    match w.DirListings path with
    | Except.ok dir => { acc with dirlistings := acc.dirlistings ++ [dir] }
    | Except.error e => { acc with trace := acc.trace ++ [Ev.ReplyError e] }
  | Except.ok false => { acc with files := acc.files ++ [path] }

/-- The loop `for _, path := range m.Path` from empty `dirlistings`, `files`. -/
def classify (w : World) (paths : List String) : Classified :=
  paths.foldl (classifyStep w) { trace := [], dirlistings := [], files := [] }

/-- The handler `WatchSet` gives to `flux.Reactive`, with the goroutine it
starts. -/
def watchSetHandler (w : World) (m : WatchSetConfig) (running : Bool) (err : Option Err)
    (script : List Iter) : Outcome :=
  match err with
  | some e => { running := running, trace := [Ev.ReplyError e], looping := false }
  | none =>
    if running then { running := running, trace := [], looping := false }
    else
      let c := classify w m.Path
      if c.dirlistings.length ≤ 0 ∧ c.files.length ≤ 0 then
        { running := true, trace := c.trace ++ [Ev.Close], looping := false }
      else
        let (t, s) := setLoop w.Join c.files c.dirlistings script
        { running := true, trace := c.trace ++ t, looping := s }

/-- `WatchSet(m)`: the reactor is made and `mo.Send(true)` calls the handler
with `err == nil` while `running` is `false`. -/
def WatchSet (w : World) (m : WatchSetConfig) (script : List Iter) : Outcome :=
  watchSetHandler w m false none script

/-- A world for examples: `file.txt` is a file, `src` a directory with one
file `a.go`, every other path does not exist. -/
def exampleWorld : World where
  Stat := fun p =>
    if p = "file.txt" then Except.ok false
    else if p = "src" then Except.ok true
    else Except.error "no such file or directory"
  DirListings := fun p => Except.ok { Path := p, Tree := [{ AbsDir := p, Tree := [("a.go", "a.go")] }] }
  Join := fun a b => a ++ "/" ++ b

/-- An iteration in which every call succeeds and the `select` takes `sel`. -/
def okIter (sel : Selected) : Iter where
  NewWatcher := none
  Add := fun _ => none
  selected := sel
  Reload := fun p => Except.ok [{ AbsDir := p, Tree := [("a.go", "a.go")] }]

/-- An iteration in which the handle is acquired and `wo.Add` fails (the
watched file is gone). -/
def addFailIter : Iter where
  NewWatcher := none
  Add := fun _ => some "no such file or directory"
  selected := Selected.Events "file.txt" true
  Reload := fun _ => Except.error "no such file or directory"

/-- An iteration in which the `select` takes `sel` and every `dir.Reload()`
fails. -/
def reloadFailIter (sel : Selected) : Iter where
  NewWatcher := none
  Add := fun _ => none
  selected := sel
  Reload := fun _ => Except.error "reload failed"

end Fs

namespace Builders

theorem safe_append {t1 t2 : List Event} {l : List Pid} (h1 : Safe l t1)
    (h2 : Safe (t1.foldl liveStep l) t2) : Safe l (t1 ++ t2) := by
  induction t1 generalizing l with
  | nil => simpa using h2
  | cons e t ih =>
    obtain ⟨ha, hb, hc⟩ := h1
    exact ⟨ha, hb, ih hc (by simpa using h2)⟩

theorem safe_take {t : List Event} {l : List Pid} (h : Safe l t) (n : Nat) :
    ((t.take n).foldl liveStep l).length ≤ 1 ∧
      ∀ e, t[n]? = some e → isStart e = true → (t.take n).foldl liveStep l = [] := by
  induction t generalizing l n with
  | nil => simpa using h
  | cons a t ih =>
    obtain ⟨ha, hb, hc⟩ := h
    cases n with
    | zero =>
      refine ⟨by simpa using ha, ?_⟩
      intro e he hs
      simp at he
      subst he
      simpa using hb hs
    | succ n => simpa using ih hc n

theorem iteration_safe (c : Cmd) (st : State) (r : Recv) :
    Safe st.proc.toList (iteration c st r).2 ∧
      (iteration c st r).2.foldl liveStep st.proc.toList =
        (iteration c st r).1.proc.toList := by
  obtain ⟨name, args, m1, m2, m3, d, s, w⟩ := c
  obtain ⟨proc, next⟩ := st
  obtain ⟨dosig, sigErr, startErr⟩ := r
  cases proc <;> cases dosig <;> cases sigErr <;> cases startErr <;> cases d <;> cases w <;>
    simp [iteration, stopProc, startProc, Safe, liveStep, isStart]

theorem rangeLoop_safe (c : Cmd) (st : State) (rs : List Recv) :
    Safe st.proc.toList (rangeLoop c st rs).2 ∧
      (rangeLoop c st rs).2.foldl liveStep st.proc.toList =
        (rangeLoop c st rs).1.proc.toList := by
  induction rs generalizing st with
  | nil => cases h : st.proc <;> simp [rangeLoop, Safe, h]
  | cons r rs ih =>
    obtain ⟨h1, h2⟩ := iteration_safe c st r
    obtain ⟨h3, h4⟩ := ih (iteration c st r).1
    simp only [rangeLoop, List.foldl_append]
    rw [← h2] at h3 h4
    exact ⟨safe_append h1 h3, h4⟩

theorem supervisor_safe (c : Cmd) (rs : List Recv) (closed : Bool) :
    Safe [] (supervisor c rs closed) ∧
      live (supervisor c rs closed) = (procAfter c rs).toList := by
  obtain ⟨h1, h2⟩ := rangeLoop_safe c { proc := none, next := 0 } rs
  have h1a : Safe [] (rangeLoop c { proc := none, next := 0 } rs).2 := h1
  have h2a : (rangeLoop c { proc := none, next := 0 } rs).2.foldl liveStep [] =
      (procAfter c rs).toList := h2
  have h3 : Safe (procAfter c rs).toList
      (if closed && c.stopped then [Event.stopped] else []) := by
    cases procAfter c rs <;> cases closed <;> cases c.stopped <;>
      simp [Safe, liveStep, isStart]
  refine ⟨safe_append h1a (h2a ▸ h3), ?_⟩
  simp only [live, supervisor, List.foldl_append]
  rw [h2a]
  cases closed <;> cases c.stopped <;> simp [liveStep]

theorem rangeLoop_append (c : Cmd) (st : State) (rs rs2 : List Recv) :
    rangeLoop c st (rs ++ rs2) =
      ((rangeLoop c (rangeLoop c st rs).1 rs2).1,
        (rangeLoop c st rs).2 ++ (rangeLoop c (rangeLoop c st rs).1 rs2).2) := by
  induction rs generalizing st with
  | nil => simp [rangeLoop]
  | cons r rs ih => simp [rangeLoop, ih]

theorem iteration_count_done (c : Cmd) (st : State) (r : Recv) :
    (iteration c st r).2.count Event.done = if c.done && r.dosig then 1 else 0 := by
  obtain ⟨name, args, m1, m2, m3, d, s, w⟩ := c
  obtain ⟨proc, next⟩ := st
  obtain ⟨dosig, sigErr, startErr⟩ := r
  cases proc <;> cases dosig <;> cases sigErr <;> cases startErr <;> cases d <;> cases w <;>
    simp [iteration, stopProc, startProc]

theorem rangeLoop_count_done (c : Cmd) (st : State) (rs : List Recv) :
    (rangeLoop c st rs).2.count Event.done =
      if c.done then (rs.filter (fun r => r.dosig)).length else 0 := by
  induction rs generalizing st with
  | nil => simp [rangeLoop]
  | cons r rs ih =>
    simp only [rangeLoop, List.count_append, iteration_count_done, ih]
    cases c.done <;> cases h : r.dosig <;> simp [List.filter, h, Nat.add_comm]

theorem supervisor_count_done (c : Cmd) (rs : List Recv) (closed : Bool) :
    (supervisor c rs closed).count Event.done =
      if c.done then (rs.filter (fun r => r.dosig)).length else 0 := by
  simp only [supervisor, List.count_append, rangeLoop_count_done]
  cases closed <;> cases c.stopped <;> simp

theorem procAfter_failed_spawn (c : Cmd) (rs : List Recv) (se : Bool) :
    procAfter c (rs ++ [⟨true, se, true⟩]) = none := by
  simp [procAfter, rangeLoop_append, rangeLoop, iteration, startProc]

theorem procAfter_false (c : Cmd) (rs : List Recv) (se ste : Bool) :
    procAfter c (rs ++ [⟨false, se, ste⟩]) = none := by
  simp [procAfter, rangeLoop_append, rangeLoop, iteration]

theorem iteration_idle_false (c : Cmd) (n : Pid) (se ste : Bool) :
    iteration c ⟨none, n⟩ ⟨false, se, ste⟩ = (⟨none, n⟩, []) := by
  simp [iteration]

theorem supervisor_false_after_false (c : Cmd) (rs : List Recv) (a b se ste closed : Bool) :
    supervisor c (rs ++ [⟨false, a, b⟩, ⟨false, se, ste⟩]) closed =
      supervisor c (rs ++ [⟨false, a, b⟩]) closed := by
  simp [supervisor, rangeLoop_append, rangeLoop, iteration]

/-- C1: for every sequence of control signals received by the goroutine of
`RunBin` or `RunGo`, with any result of each signal delivery and each spawn,
after any number `n` of its actions at most one process has been started and
not yet waited for, and whenever the next action is a `cmd.Start()` no process
is. -/
theorem at_most_one_child (windows : Bool) (clean : String → String) (file : String)
    (args : List String) (done stopped : Bool) (rs : List Recv) (closed : Bool) (n : Nat) :
    ((live ((RunBin windows file args done stopped rs closed).take n)).length ≤ 1 ∧
      ∀ e, (RunBin windows file args done stopped rs closed)[n]? = some e →
        isStart e = true →
        live ((RunBin windows file args done stopped rs closed).take n) = []) ∧
    ((live ((RunGo windows clean file args done stopped rs closed).take n)).length ≤ 1 ∧
      ∀ e, (RunGo windows clean file args done stopped rs closed)[n]? = some e →
        isStart e = true →
        live ((RunGo windows clean file args done stopped rs closed).take n) = []) :=
  ⟨safe_take (supervisor_safe _ rs closed).1 n, safe_take (supervisor_safe _ rs closed).1 n⟩

/-- C2, as stated, fails: `RunBin` receives one `true` (the spawn succeeds, the
supervisor is Running with process 0) and the channel is closed; the goroutine
only calls `stopped`, process 0 is neither signalled nor waited for and is
still live at the end. -/
theorem close_while_running_does_not_stop :
    RunBin false "bin" [] true true [⟨true, false, false⟩] true =
        [Event.Printf "--> Starting bin: %s\n", Event.Start "bin" [] (some 0),
          Event.done, Event.stopped] ∧
      live (RunBin false "bin" [] true true [⟨true, false, false⟩] true) = [0] := by
  decide

/-- C2, amended: when the control channel of `RunBin` or `RunGo` is closed,
Running or Idle, the goroutine does nothing but call `stopped` if it was given;
the process the supervisor refers to at that moment, if any, is still started
and not waited for when the goroutine ends. -/
theorem close_only_calls_stopped (windows : Bool) (clean : String → String) (file : String)
    (args : List String) (done stopped : Bool) (rs : List Recv) :
    (RunBin windows file args done stopped rs true =
        RunBin windows file args done stopped rs false ++
          (if stopped then [Event.stopped] else []) ∧
      live (RunBin windows file args done stopped rs true) =
        (procAfter (binCmd windows file args done stopped) rs).toList) ∧
    (RunGo windows clean file args done stopped rs true =
        RunGo windows clean file args done stopped rs false ++
          (if stopped then [Event.stopped] else []) ∧
      live (RunGo windows clean file args done stopped rs true) =
        (procAfter (goCmd windows clean file args done stopped) rs).toList) := by
  refine ⟨⟨?_, (supervisor_safe _ rs true).2⟩, ⟨?_, (supervisor_safe _ rs true).2⟩⟩ <;>
    cases stopped <;> simp [RunBin, RunGo, supervisor, binCmd, goCmd]

/-- C3, as stated, fails: `RunBin` receives one `true` whose `cmd.Start()`
returns an error; `done` is called all the same. -/
theorem done_called_after_failed_spawn :
    RunBin false "bin" [] true true [⟨true, false, true⟩] false =
      [Event.Printf "--> Starting bin: %s\n", Event.Start "bin" [] none,
        Event.Printf "---> Error starting process: %s -> %s\n", Event.done] := by
  decide

/-- C3, amended: the callback `done`, when given, is called exactly once for
every `true` signal handled by `RunBin` or `RunGo`, whether its spawn succeeds
or fails (in one iteration, and so as many times in a run as `true` was
received); after a `true` signal whose spawn fails the supervisor is Idle (its
process reference is empty). -/
theorem done_called_once_per_true_signal (c : Cmd) (st : State) (windows : Bool)
    (clean : String → String) (file : String) (args : List String) (done stopped : Bool)
    (rs : List Recv) (closed se ste : Bool) :
    (iteration c st ⟨true, se, ste⟩).2.count Event.done = (if c.done then 1 else 0) ∧
    (RunBin windows file args true stopped rs closed).count Event.done =
      (rs.filter (fun r => r.dosig)).length ∧
    (RunGo windows clean file args true stopped rs closed).count Event.done =
      (rs.filter (fun r => r.dosig)).length ∧
    procAfter (binCmd windows file args done stopped) (rs ++ [⟨true, se, true⟩]) = none ∧
    procAfter (goCmd windows clean file args done stopped) (rs ++ [⟨true, se, true⟩]) = none := by
  refine ⟨?_, ?_, ?_, procAfter_failed_spawn _ rs se, procAfter_failed_spawn _ rs se⟩
  · simp [iteration_count_done]
  · simp [RunBin, supervisor_count_done, binCmd]
  · simp [RunGo, supervisor_count_done, goCmd]

/-- C4: in state Running with process `p`, handling `true` performs, apart from
diagnostic output, exactly: the stop of `p` (`Kill` on windows, `Signal`
elsewhere, and a `Kill` when that delivery failed), the wait for `p`, the start
of the new process, then `done` (when given); handling `false` performs the
stop and the wait and nothing else.  For the signals true, true, false with
successful spawns and deliveries the actions of `RunBin` and of `RunGo` are
start 0, done, stop 0, wait 0, start 1, done, stop 1, wait 1. -/
theorem running_restart_order (c : Cmd) (p n : Pid) (se ste windows : Bool)
    (clean : String → String) (file : String) (args : List String) (stopped : Bool) :
    actions (iteration c ⟨some p, n⟩ ⟨true, se, ste⟩).2 =
      [if c.windows then Event.Kill p else Event.Signal p] ++
        (if se then [Event.Kill p] else []) ++
        [Event.Wait p, Event.Start c.name c.args (if ste then none else some n)] ++
        (if c.done then [Event.done] else []) ∧
    actions (iteration c ⟨some p, n⟩ ⟨false, se, ste⟩).2 =
      [if c.windows then Event.Kill p else Event.Signal p] ++
        (if se then [Event.Kill p] else []) ++ [Event.Wait p] ∧
    actions (RunBin windows file args true stopped
        [⟨true, false, false⟩, ⟨true, false, false⟩, ⟨false, false, false⟩] false) =
      [Event.Start file args (some 0), Event.done,
        if windows then Event.Kill 0 else Event.Signal 0, Event.Wait 0,
        Event.Start file args (some 1), Event.done,
        if windows then Event.Kill 1 else Event.Signal 1, Event.Wait 1] ∧
    actions (RunGo windows clean file args true stopped
        [⟨true, false, false⟩, ⟨true, false, false⟩, ⟨false, false, false⟩] false) =
      [Event.Start "go" (["run", clean file] ++ args) (some 0), Event.done,
        if windows then Event.Kill 0 else Event.Signal 0, Event.Wait 0,
        Event.Start "go" (["run", clean file] ++ args) (some 1), Event.done,
        if windows then Event.Kill 1 else Event.Signal 1, Event.Wait 1] := by
  obtain ⟨name, cargs, m1, m2, m3, d, s, w⟩ := c
  refine ⟨?_, ?_, ?_, ?_⟩
  · cases se <;> cases ste <;> cases d <;> cases w <;>
      simp [actions, isPrintf, iteration, stopProc, startProc]
  · cases se <;> cases w <;> simp [actions, isPrintf, iteration, stopProc]
  · cases windows <;>
      simp [actions, isPrintf, RunBin, binCmd, supervisor, rangeLoop, iteration, stopProc,
        startProc]
  · cases windows <;>
      simp [actions, isPrintf, RunGo, goCmd, supervisor, rangeLoop, iteration, stopProc,
        startProc]

/-- C5: handling `false` in state Idle is a no-op: the iteration leaves the
state unchanged and performs no action at all (no signal, kill, wait, start,
`done` or `stopped`); so `RunBin` and `RunGo` do nothing for a `false` received
first, nor for a `false` received right after another `false`. -/
theorem idle_false_is_noop (c : Cmd) (n : Pid) (a b se ste windows : Bool)
    (clean : String → String) (file : String) (args : List String) (done stopped : Bool)
    (rs : List Recv) (closed : Bool) :
    iteration c ⟨none, n⟩ ⟨false, se, ste⟩ = (⟨none, n⟩, []) ∧
    RunBin windows file args done stopped [⟨false, se, ste⟩] false = [] ∧
    RunGo windows clean file args done stopped [⟨false, se, ste⟩] false = [] ∧
    RunBin windows file args done stopped (rs ++ [⟨false, a, b⟩, ⟨false, se, ste⟩]) closed =
      RunBin windows file args done stopped (rs ++ [⟨false, a, b⟩]) closed ∧
    RunGo windows clean file args done stopped (rs ++ [⟨false, a, b⟩, ⟨false, se, ste⟩]) closed =
      RunGo windows clean file args done stopped (rs ++ [⟨false, a, b⟩]) closed :=
  ⟨iteration_idle_false c n se ste,
    by simp [RunBin, supervisor, rangeLoop, iteration],
    by simp [RunGo, supervisor, rangeLoop, iteration],
    supervisor_false_after_false _ rs a b se ste closed,
    supervisor_false_after_false _ rs a b se ste closed⟩

/-- C10, the code at the failing input: given an empty list of commands
`RunCMD` does not panic (its guard is `len(cmds) < 0`); it returns the channel,
and for a `true` received its goroutine prints, runs nothing and calls `done`. -/
theorem RunCMD_empty_list_no_panic (done : Bool) (rs : List CmdRecv) :
    RunCMD [] done rs = Except.ok (cmdLoop [] done 0 rs) ∧
    RunCMD [] true [⟨true, fun _ => false⟩] =
      Except.ok [Event.Printf "--> Running Commands %s\n", Event.done] := by
  simp [RunCMD, cmdLoop, runCommands]

end Builders

namespace Fs

theorem fileLoop_append (path : String) (pre rest : List Iter)
    (hpre : ∀ i ∈ pre, i.NewWatcher = none ∧ i.Add path = none) :
    fileLoop path (pre ++ rest) =
      ((fileLoop path pre).1 ++ (fileLoop path rest).1, (fileLoop path rest).2) := by
  induction pre with
  | nil => simp [fileLoop]
  | cons i pre ih =>
    have hi := hpre i (List.mem_cons_self _ _)
    have ht := ih (fun j hj => hpre j (List.mem_cons_of_mem _ hj))
    simp [fileLoop, hi.1, hi.2, ht]

theorem fileLoop_add_fails (path : String) (it : Iter) (rest : List Iter) (e : Err)
    (hnw : it.NewWatcher = none) (hadd : it.Add path = some e) :
    fileLoop path (it :: rest) =
      ([Ev.NewWatcher true, Ev.Add path, Ev.WoClose, Ev.Close], false) := by
  simp [fileLoop, hnw, hadd]

theorem foldl_classifyStep (w : World) (paths : List String) (acc : Classified) :
    paths.foldl (classifyStep w) acc =
      { trace := acc.trace ++ paths.filterMap (fun p =>
          match w.Stat p with
          | Except.error e => some (Ev.ReplyError e)
          | Except.ok true =>
            (match w.DirListings p with
              | Except.error e => some (Ev.ReplyError e)
              | Except.ok _ => none)
          | Except.ok false => none),
        dirlistings := acc.dirlistings ++ paths.filterMap (fun p =>
          match w.Stat p with
          | Except.ok true =>
            (match w.DirListings p with
              | Except.ok dir => some dir
              | Except.error _ => none)
          | _ => none),
        files := acc.files ++ paths.filter (fun p =>
          match w.Stat p with
          | Except.ok false => true
          | _ => false) } := by
  induction paths generalizing acc with
  | nil => simp
  | cons p paths ih =>
    rw [List.foldl_cons, ih]
    unfold classifyStep
    rcases hs : w.Stat p with e | b
    · simp [List.filterMap_cons, List.filter_cons, hs]
    · cases b
      · simp [List.filterMap_cons, List.filter_cons, hs]
      · rcases hd : w.DirListings p with e | d <;>
          simp [List.filterMap_cons, List.filter_cons, hs, hd]

theorem classify_trace_replyError (w : World) (paths : List String) (ev : Ev)
    (h : ev ∈ (classify w paths).trace) : ∃ e, ev = Ev.ReplyError e := by
  rw [classify, foldl_classifyStep] at h
  simp only [List.nil_append, List.mem_filterMap] at h
  obtain ⟨p, _, hp⟩ := h
  rcases hs : w.Stat p with e | b
  · rw [hs] at hp
    exact ⟨e, by simpa using hp.symm⟩
  · cases b
    · rw [hs] at hp
      simp at hp
    · rw [hs] at hp
      rcases hd : w.DirListings p with e | d
      · rw [hd] at hp
        exact ⟨e, by simpa using hp.symm⟩
      · rw [hd] at hp
        simp at hp

theorem setLoop_cons_newWatcher (join : String → String → String) (files : List String)
    (dirs : List DirListing) (it : Iter) (rest : List Iter) :
    ∃ ok, Ev.NewWatcher ok ∈ (setLoop join files dirs (it :: rest)).1 := by
  rcases h : it.NewWatcher with _ | e
  · exact ⟨true, by simp [setLoop, h]⟩
  · exact ⟨false, by simp [setLoop, h]⟩

theorem watchSet_trace_of_empty (w : World) (paths : List String) (script : List Iter)
    (h : (classify w paths).dirlistings.length ≤ 0 ∧ (classify w paths).files.length ≤ 0) :
    (WatchSet w ⟨paths⟩ script).trace = (classify w paths).trace ++ [Ev.Close] := by
  simp only [WatchSet, watchSetHandler, Bool.false_eq_true, ↓reduceIte, if_pos h]

theorem watchSet_trace_of_nonempty (w : World) (paths : List String) (script : List Iter)
    (h : ¬ ((classify w paths).dirlistings.length ≤ 0 ∧ (classify w paths).files.length ≤ 0)) :
    (WatchSet w ⟨paths⟩ script).trace = (classify w paths).trace ++
      (setLoop w.Join (classify w paths).files (classify w paths).dirlistings script).1 := by
  simp only [WatchSet, watchSetHandler, Bool.false_eq_true, ↓reduceIte, if_neg h]

/-- C6, the code at failing inputs: in each of the three watch loops the
`CloseNotify` case of the `select` only leaves the `select`; the loop goes on,
closes the handle, reloads the snapshot (directory loops) and acquires a new
handle in the next iteration, and `root.Close()` is not called. -/
theorem cancellation_does_not_leave_loop :
    Watch exampleWorld ⟨"file.txt"⟩ [okIter Selected.CloseNotify, okIter Selected.CloseNotify] =
      ⟨true, [Ev.NewWatcher true, Ev.Add "file.txt", Ev.WoClose, Ev.WoClose,
        Ev.NewWatcher true, Ev.Add "file.txt", Ev.WoClose, Ev.WoClose], true⟩ ∧
    Watch exampleWorld ⟨"src"⟩ [okIter Selected.CloseNotify, okIter Selected.CloseNotify] =
      ⟨true, [Ev.NewWatcher true, Ev.Add "src", Ev.Add "src/a.go", Ev.WoClose, Ev.WoClose,
        Ev.Reload "src",
        Ev.NewWatcher true, Ev.Add "src", Ev.Add "src/a.go", Ev.WoClose, Ev.WoClose,
        Ev.Reload "src"], true⟩ ∧
    WatchSet exampleWorld ⟨["src", "file.txt"]⟩
        [okIter Selected.CloseNotify, okIter Selected.CloseNotify] =
      ⟨true, [Ev.NewWatcher true, Ev.Add "src", Ev.Add "src/a.go", Ev.Add "file.txt",
        Ev.WoClose, Ev.Reload "src",
        Ev.NewWatcher true, Ev.Add "src", Ev.Add "src/a.go", Ev.Add "file.txt",
        Ev.WoClose, Ev.Reload "src"], true⟩ := by
  decide

/-- C7, as stated, fails: `Watch` on a file whose registration fails in the
first iteration closes the handle, leaves the loop and closes the session;
the next iteration never runs and nothing is forwarded to the sink. -/
theorem file_registration_failure_is_fatal :
    Watch exampleWorld ⟨"file.txt"⟩ [addFailIter, okIter (Selected.Events "file.txt" true)] =
      ⟨true, [Ev.NewWatcher true, Ev.Add "file.txt", Ev.WoClose, Ev.Close], false⟩ := by
  decide

/-- C7, amended: in the single-file loop of `Watch`, an iteration in which the
handle is acquired and registering the watched path fails does not crash the
loop: the run is the same whatever would follow (no later iteration runs, the
path is not registered again), the goroutine has left its loop, and the last
two actions are closing the handle and closing the session. -/
theorem file_registration_failure_ends_session (w : World) (m : WatchConfig)
    (pre : List Iter) (it : Iter) (rest : List Iter) (e : Err)
    (hstat : w.Stat m.Path = Except.ok false)
    (hpre : ∀ i ∈ pre, i.NewWatcher = none ∧ i.Add m.Path = none)
    (hnw : it.NewWatcher = none) (hadd : it.Add m.Path = some e) :
    Watch w m (pre ++ it :: rest) = Watch w m (pre ++ [it]) ∧
    (Watch w m (pre ++ it :: rest)).looping = false ∧
    [Ev.WoClose, Ev.Close] <:+ (Watch w m (pre ++ it :: rest)).trace := by
  have h1 := fileLoop_append m.Path pre (it :: rest) hpre
  have h2 := fileLoop_append m.Path pre [it] hpre
  have h3 := fileLoop_add_fails m.Path it rest e hnw hadd
  have h4 := fileLoop_add_fails m.Path it [] e hnw hadd
  refine ⟨?_, ?_, ?_⟩
  · simp [Watch, watchHandler, hstat, h1, h2, h3, h4]
  · simp [Watch, watchHandler, hstat, h1, h3]
  · simp only [Watch, watchHandler, hstat, h1, h3]
    exact ⟨(fileLoop m.Path pre).1 ++ [Ev.NewWatcher true, Ev.Add m.Path], by simp⟩

/-- Witness of `file_registration_failure_ends_session`: `file.txt` is
watched, one event is forwarded, then the registration fails. -/
theorem file_registration_failure_ends_session_witness :
    Watch exampleWorld ⟨"file.txt"⟩
        ([okIter (Selected.Events "file.txt" true)] ++ addFailIter ::
          [okIter (Selected.Events "file.txt" true)]) =
      Watch exampleWorld ⟨"file.txt"⟩
        ([okIter (Selected.Events "file.txt" true)] ++ [addFailIter]) ∧
    (Watch exampleWorld ⟨"file.txt"⟩
        ([okIter (Selected.Events "file.txt" true)] ++ addFailIter ::
          [okIter (Selected.Events "file.txt" true)])).looping = false ∧
    [Ev.WoClose, Ev.Close] <:+ (Watch exampleWorld ⟨"file.txt"⟩
        ([okIter (Selected.Events "file.txt" true)] ++ addFailIter ::
          [okIter (Selected.Events "file.txt" true)])).trace :=
  file_registration_failure_ends_session exampleWorld ⟨"file.txt"⟩
    [okIter (Selected.Events "file.txt" true)] addFailIter
    [okIter (Selected.Events "file.txt" true)] "no such file or directory"
    (by simp [exampleWorld]) (by simp [okIter]) rfl rfl

/-- C8, the code at the failing input: `WatchSet` on the directory `src`
handles one event and `dir.Reload()` fails; the error is dropped, nothing is
forwarded for it.  `Watch` on the same directory with the same answers
forwards it with `root.ReplyError`. -/
theorem watchSet_drops_reload_error :
    WatchSet exampleWorld ⟨["src"]⟩ [reloadFailIter (Selected.Events "src/a.go" true)] =
      ⟨true, [Ev.NewWatcher true, Ev.Add "src", Ev.Add "src/a.go", Ev.Reply "src/a.go",
        Ev.WoClose, Ev.Reload "src"], true⟩ ∧
    Watch exampleWorld ⟨"src"⟩ [reloadFailIter (Selected.Events "src/a.go" true)] =
      ⟨true, [Ev.NewWatcher true, Ev.Add "src", Ev.Add "src/a.go", Ev.Reply "src/a.go",
        Ev.WoClose, Ev.Reload "src", Ev.ReplyError "reload failed"], true⟩ := by
  decide

/-- C9: for every list of roots given to `WatchSet`, the run of `WatchSet`
starts with the errors forwarded by classification: exactly one for each root
whose stat fails (and one for each directory whose listing fails), in input
order, classification going on with the remaining roots; `files` is the roots
that are valid and not directories, in input order; `dirlistings` is the
listings of the valid directories; after the forwarded errors `WatchSet`
closes the session at once when both are empty and otherwise runs its loop on
exactly these `files` and `dirlistings`; and the session is closed with no
attempt to acquire a notification handle if and only if both are empty. -/
theorem watchSet_classification (w : World) (paths : List String) (script : List Iter) :
    (classify w paths).trace = paths.filterMap (fun p =>
        match w.Stat p with
        | Except.error e => some (Ev.ReplyError e)
        | Except.ok true =>
          (match w.DirListings p with
            | Except.error e => some (Ev.ReplyError e)
            | Except.ok _ => none)
        | Except.ok false => none) ∧
    (classify w paths).files = paths.filter (fun p =>
        match w.Stat p with
        | Except.ok false => true
        | _ => false) ∧
    (classify w paths).dirlistings = paths.filterMap (fun p =>
        match w.Stat p with
        | Except.ok true =>
          (match w.DirListings p with
            | Except.ok dir => some dir
            | Except.error _ => none)
        | _ => none) ∧
    ((Ev.Close ∈ (WatchSet w ⟨paths⟩ script).trace ∧
        ∀ ok, Ev.NewWatcher ok ∉ (WatchSet w ⟨paths⟩ script).trace) ↔
      ((classify w paths).files = [] ∧ (classify w paths).dirlistings = [])) ∧
    (classify w paths).trace <+: (WatchSet w ⟨paths⟩ script).trace ∧
    (WatchSet w ⟨paths⟩ script).trace =
      paths.filterMap (fun p =>
        match w.Stat p with
        | Except.error e => some (Ev.ReplyError e)
        | Except.ok true =>
          (match w.DirListings p with
            | Except.error e => some (Ev.ReplyError e)
            | Except.ok _ => none)
        | Except.ok false => none) ++
      (if (paths.filter (fun p =>
              match w.Stat p with
              | Except.ok false => true
              | _ => false)).isEmpty &&
            (paths.filterMap (fun p =>
              match w.Stat p with
              | Except.ok true =>
                (match w.DirListings p with
                  | Except.ok dir => some dir
                  | Except.error _ => none)
              | _ => none)).isEmpty
        then [Ev.Close]
        else
          (setLoop w.Join
            (paths.filter (fun p =>
              match w.Stat p with
              | Except.ok false => true
              | _ => false))
            (paths.filterMap (fun p =>
              match w.Stat p with
              | Except.ok true =>
                (match w.DirListings p with
                  | Except.ok dir => some dir
                  | Except.error _ => none)
              | _ => none))
            script).1) ∧
    (WatchSet w ⟨paths⟩ script).running = true := by
  have h1 : (classify w paths).trace = paths.filterMap (fun p =>
        match w.Stat p with
        | Except.error e => some (Ev.ReplyError e)
        | Except.ok true =>
          (match w.DirListings p with
            | Except.error e => some (Ev.ReplyError e)
            | Except.ok _ => none)
        | Except.ok false => none) := by
    simp [classify, foldl_classifyStep]
  have h2 : (classify w paths).files = paths.filter (fun p =>
        match w.Stat p with
        | Except.ok false => true
        | _ => false) := by
    simp [classify, foldl_classifyStep]
  have h3 : (classify w paths).dirlistings = paths.filterMap (fun p =>
        match w.Stat p with
        | Except.ok true =>
          (match w.DirListings p with
            | Except.ok dir => some dir
            | Except.error _ => none)
        | _ => none) := by
    simp [classify, foldl_classifyStep]
  have hre := classify_trace_replyError w paths
  refine ⟨h1, h2, h3, ?_, ?_, ?_, ?_⟩
  · by_cases hboth : (classify w paths).dirlistings.length ≤ 0 ∧ (classify w paths).files.length ≤ 0
    · have hd : (classify w paths).dirlistings = [] := List.length_eq_zero.mp (Nat.le_zero.mp hboth.1)
      have hf : (classify w paths).files = [] := List.length_eq_zero.mp (Nat.le_zero.mp hboth.2)
      rw [watchSet_trace_of_empty w paths script hboth]
      refine ⟨fun _ => ⟨hf, hd⟩, fun _ => ⟨by simp, ?_⟩⟩
      intro ok hmem
      rcases List.mem_append.mp hmem with hmem | hmem
      · obtain ⟨e, he⟩ := hre _ hmem
        cases he
      · simp at hmem
    · have hne : ¬ ((classify w paths).files = [] ∧ (classify w paths).dirlistings = []) := by
        rintro ⟨hf, hd⟩
        exact hboth ⟨by simp [hd], by simp [hf]⟩
      rw [watchSet_trace_of_nonempty w paths script hboth]
      refine ⟨fun hl => ?_, fun hr => absurd hr hne⟩
      exfalso
      obtain ⟨hclose, hnone⟩ := hl
      cases script with
      | nil =>
        simp only [setLoop, List.append_nil] at hclose
        obtain ⟨e, he⟩ := hre _ hclose
        cases he
      | cons it rest =>
        obtain ⟨ok, hok⟩ := setLoop_cons_newWatcher w.Join (classify w paths).files
          (classify w paths).dirlistings it rest
        exact hnone ok (List.mem_append_right _ hok)
  · by_cases hboth : (classify w paths).dirlistings.length ≤ 0 ∧ (classify w paths).files.length ≤ 0
    · rw [watchSet_trace_of_empty w paths script hboth]
      exact List.prefix_append _ _
    · rw [watchSet_trace_of_nonempty w paths script hboth]
      exact List.prefix_append _ _
  · rw [← h1, ← h2, ← h3]
    by_cases hboth : (classify w paths).dirlistings.length ≤ 0 ∧ (classify w paths).files.length ≤ 0
    · have hd : (classify w paths).dirlistings = [] := List.length_eq_zero.mp (Nat.le_zero.mp hboth.1)
      have hf : (classify w paths).files = [] := List.length_eq_zero.mp (Nat.le_zero.mp hboth.2)
      rw [watchSet_trace_of_empty w paths script hboth]
      simp [hd, hf]
    · rw [watchSet_trace_of_nonempty w paths script hboth]
      have hcond : ((classify w paths).files.isEmpty &&
          (classify w paths).dirlistings.isEmpty) = false := by
        rcases hf : (classify w paths).files with _ | ⟨a, l⟩
        · rcases hd : (classify w paths).dirlistings with _ | ⟨b, k⟩
          · exact absurd ⟨by simp [hd], by simp [hf]⟩ hboth
          · simp
        · simp
      rw [hcond]
      simp
  · simp only [WatchSet, watchSetHandler, Bool.false_eq_true, ↓reduceIte]
    split <;> rfl

end Fs
